import Mathlib

/-!
Verification of the MENTEE_PRAC_PLATFORM question-generation flow.

Strings of the TypeScript source are modelled as `List Char`.  The server
route (`POST /api/generate-question-assets`) and the admin create-question
form are embedded as pure Lean functions over that model.
-/

set_option maxRecDepth 4000

/-- JavaScript whitespace characters relevant to `String.prototype.trim`. -/
def jsWs (c : Char) : Bool := c == ' ' || c == '\t' || c == '\n' || c == '\r'

/-- Model of JavaScript `s.trim()`: strip leading and trailing whitespace. -/
def jsTrim (s : List Char) : List Char :=
  ((s.dropWhile jsWs).reverse.dropWhile jsWs).reverse

/-- Model of JavaScript `s.startsWith(p)` on the character-list view. -/
def hasPrefixChars : List Char → List Char → Bool
  | [], _ => true
  | _ :: _, [] => false
  | p :: ps, c :: cs => p == c && hasPrefixChars ps cs

/-- Model of JavaScript `s.endsWith(p)` on the character-list view. -/
def hasSuffixChars (p s : List Char) : Bool := hasPrefixChars p.reverse s.reverse

/-- Drop the last `n` characters of a string. -/
def dropRightN (n : Nat) (s : List Char) : List Char := (s.reverse.drop n).reverse

/-- The tag checked by `cleanedResponse.startsWith('```json')`. -/
def fenceTagJson : List Char := ['`', '`', '`', 'j', 's', 'o', 'n']

/-- The opening fence removed by the regex `/^```json\n/`. -/
def fenceJsonOpen : List Char := ['`', '`', '`', 'j', 's', 'o', 'n', '\n']

/-- The tag checked by `cleanedResponse.startsWith('```')`. -/
def fenceTagPlain : List Char := ['`', '`', '`']

/-- The opening fence removed by the regex `/^```\n/`. -/
def fencePlainOpen : List Char := ['`', '`', '`', '\n']

/-- The closing fence removed by the regex `/\n```$/`. -/
def fenceClose : List Char := ['\n', '`', '`', '`']

/-- Model of `.replace(/\n```$/, '')`: remove a trailing fence if present. -/
def stripClosingFence (c : List Char) : List Char :=
  if hasSuffixChars fenceClose c then dropRightN 4 c else c

/-- Embedding of the response-cleaning step of the route handler
(`src/unnamed/part_002`, lines 170-175): trim, then strip a leading
(tagged or untagged) code fence and a trailing fence. -/
def cleanResponse (s : List Char) : List Char :=
  let c := jsTrim s
  if hasPrefixChars fenceTagJson c then
    stripClosingFence (if hasPrefixChars fenceJsonOpen c then c.drop 8 else c)
  else if hasPrefixChars fenceTagPlain c then
    stripClosingFence (if hasPrefixChars fencePlainOpen c then c.drop 4 else c)
  else c

/-- A body wrapped in a language-tagged code fence. -/
def wrapJsonFence (t : List Char) : List Char := fenceJsonOpen ++ t ++ fenceClose

/-- A body wrapped in an untagged code fence. -/
def wrapPlainFence (t : List Char) : List Char := fencePlainOpen ++ t ++ fenceClose

/-- Model of the JavaScript blank test on a string value:
`!value || String(value).trim() === ''` collapses to trim-emptiness. -/
def strBlank (s : List Char) : Bool := (jsTrim s).isEmpty

/-- Model of JavaScript `String(arr)` for an array of strings: the elements
joined with commas. -/
def joinComma (l : List (List Char)) : List Char := List.intercalate [','] l

/-- The body of `POST /api/generate-question-assets`
(`GenerationRequestData` in `src/unnamed/part_002`).  Each field is
optional so that an absent (undefined) field is representable. -/
structure GenReq where
  problemDescription : Option (List Char)
  constraints : Option (List Char)
  inputFormat : Option (List Char)
  outputFormat : Option (List Char)
  exampleInputs : Option (List (List Char))
  exampleOutputs : Option (List (List Char))
  explanations : Option (List (List Char))
deriving DecidableEq

/-- `!value || String(value).trim() === ''` for a string-typed field:
an absent field is falsy, a present one is blank when its trim is empty. -/
def strFieldMissing : Option (List Char) → Bool
  | none => true
  | some s => strBlank s

/-- `!value || String(value).trim() === ''` for an array-typed field:
an absent field is falsy; a present array stringifies to its comma-join,
which is then tested for trim-emptiness. -/
def arrFieldMissing : Option (List (List Char)) → Bool
  | none => true
  | some a => strBlank (joinComma a)

def fieldPD : List Char := "problemDescription".data

def fieldConstraints : List Char := "constraints".data

def fieldInFmt : List Char := "inputFormat".data

def fieldOutFmt : List Char := "outputFormat".data

def fieldExIn : List Char := "exampleInputs".data

def fieldExOut : List Char := "exampleOutputs".data

def fieldExpl : List Char := "explanations".data

/-- Embedding of the `missingFields` computation (`src/unnamed/part_002`,
lines 68-79): every entry of `requiredFields` that is falsy or stringifies
to a blank string, in object-literal order. -/
def missingFields (r : GenReq) : List (List Char) :=
  (if strFieldMissing r.problemDescription then [fieldPD] else []) ++
  (if strFieldMissing r.constraints then [fieldConstraints] else []) ++
  (if strFieldMissing r.inputFormat then [fieldInFmt] else []) ++
  (if strFieldMissing r.outputFormat then [fieldOutFmt] else []) ++
  (if arrFieldMissing r.exampleInputs then [fieldExIn] else []) ++
  (if arrFieldMissing r.exampleOutputs then [fieldExOut] else []) ++
  (if arrFieldMissing r.explanations then [fieldExpl] else [])

/-- The 400 message `Missing required fields: ${missingFields.join(', ')}`. -/
def missingMsg (fields : List (List Char)) : List Char :=
  "Missing required fields: ".data ++ List.intercalate (", ".data) fields

/-- The 400 message for invalid example inputs. -/
def errExampleInputs : List Char :=
  "At least one valid example input is required.".data

/-- The 400 message for invalid example outputs. -/
def errExampleOutputs : List Char :=
  "Example outputs are required, must match the number of inputs, and cannot be empty.".data

/-- Embedding of the input-validation section of the route handler
(`src/unnamed/part_002`, lines 67-104).  `some (status, msg)` is an early
400 response; `none` means validation passed. -/
def validateRequest (r : GenReq) : Option (Nat × List Char) :=
  if 0 < (missingFields r).length then
    some (400, missingMsg (missingFields r))
  else
    match r.exampleInputs with
    | none => some (400, errExampleInputs)
    | some ins =>
      if ins.isEmpty || ins.any strBlank then some (400, errExampleInputs)
      else
        match r.exampleOutputs with
        | none => some (400, errExampleOutputs)
        | some outs =>
          if outs.length != ins.length || outs.any strBlank then
            some (400, errExampleOutputs)
          else none

/-- The text a JavaScript template renders for `undefined`. -/
def undefinedText : List Char := "undefined".data

/-- The explanation part of one example block
(`src/unnamed/part_002`, line 125): the ternary
`explanations && explanations[index] ? Explanation... : ''`.
An out-of-range index is `undefined` (falsy) and an empty string is falsy;
any other string, including whitespace-only ones, is truthy. -/
def explanationSlot : Option (List Char) → List Char
  | none => []
  | some e => if e.isEmpty then [] else "Explanation:\n".data ++ e

/-- One numbered example block of the Gemini prompt
(`src/unnamed/part_002`, lines 119-126). -/
def renderExample (i : Nat) (input output : List Char)
    (expl : Option (List Char)) : List Char :=
  "\nExample ".data ++ (Nat.repr (i + 1)).data ++ ":\nInput:\n".data ++
  input ++ "\nOutput:\n".data ++ output ++ ['\n'] ++
  explanationSlot expl ++ ['\n']

/-- The mapped blocks of `exampleInputs.map((input, index) => ...)`,
carrying the running index. -/
def exampleBlocksFrom (outs expls : List (List Char)) :
    Nat → List (List Char) → List (List Char)
  | _, [] => []
  | i, input :: rest =>
    renderExample i input (outs.getD i undefinedText) (expls.get? i) ::
      exampleBlocksFrom outs expls (i + 1) rest

/-- Embedding of `examplesString` (`src/unnamed/part_002`, lines 119-126):
the example blocks joined by the fixed delimiter. -/
def examplesString (ins outs expls : List (List Char)) : List Char :=
  List.intercalate ("\n---\n".data) (exampleBlocksFrom outs expls 0 ins)

/-- The `starterCode` object expected from the generator
(`GeminiAssetsResponse` in `src/unnamed/part_002`). -/
structure StarterCode where
  python : List Char
  javascript : List Char
  cpp : List Char
  java : List Char
deriving DecidableEq

/-- One hidden test case of the generator response. -/
structure HiddenTestCase where
  input : List Char
  expectedOutput : List Char
deriving DecidableEq

/-- The parsed generator response (`GeminiAssetsResponse`). -/
structure GeminiAssets where
  starterCode : StarterCode
  hiddenTestCases : List HiddenTestCase
deriving DecidableEq

/-- Embedding of the structural check on the parsed response
(`src/unnamed/part_002`, lines 182-194).  JavaScript tests each field with
`!`, so an empty string fails the check exactly like a missing key. -/
def structureOk (g : GeminiAssets) : Bool :=
  !g.starterCode.python.isEmpty &&
  !g.starterCode.javascript.isEmpty &&
  !g.starterCode.cpp.isEmpty &&
  !g.starterCode.java.isEmpty &&
  match g.hiddenTestCases with
  | [] => false
  | t :: _ => !t.input.isEmpty && !t.expectedOutput.isEmpty

/-- The 500 body sent when parsing or the structural check fails. -/
def parseFailureMsg : List Char :=
  "Failed to process AI response. Please check the format or try again.".data

/-- The message of the error thrown by the structural check. -/
def shapeErrMsg : List Char :=
  "Invalid or incomplete structure in AI response.".data

def logRawLead : List Char := "Failed to parse Gemini response: ".data

def logDiagLead : List Char := "Parse error: ".data

/-- The outcome of the parse-and-validate stage of the route handler:
HTTP status, optional error body, returned assets, server-side log lines,
and whether `console.warn` fired for the test-case count. -/
structure ApiOutcome where
  status : Nat
  errorMsg : Option (List Char)
  assets : Option GeminiAssets
  logs : List (List Char)
  warned : Bool
deriving DecidableEq

/-- Embedding of the clean/parse/validate stage of the route handler
(`src/unnamed/part_002`, lines 169-212).  `parse` stands for `JSON.parse`
(typed against `GeminiAssetsResponse`); `Except.error d` is a parse
failure with diagnostic `d`.  Both a parse failure and a failed structural
check land in the same `catch` and produce the same 500 response, with the
raw text and the diagnostic logged server-side. -/
def processGeminiResponse (parse : List Char → Except (List Char) GeminiAssets)
    (responseText : List Char) : ApiOutcome :=
  match parse (cleanResponse responseText) with
  | Except.error diag =>
    { status := 500, errorMsg := some parseFailureMsg, assets := none,
      logs := [logRawLead ++ responseText, logDiagLead ++ diag],
      warned := false }
  | Except.ok g =>
    if structureOk g then
      { status := 200, errorMsg := none, assets := some g, logs := [],
        warned := g.hiddenTestCases.length < 18 || 22 < g.hiddenTestCases.length }
    else
      { status := 500, errorMsg := some parseFailureMsg, assets := none,
        logs := [logRawLead ++ responseText, logDiagLead ++ shapeErrMsg],
        warned := false }

/-- The `content` object of the admin create-question form state
(`src/unnamed/part_001`, lines 18-33). -/
structure QuestionContent where
  problemDescription : List Char
  constraints : List Char
  inputFormat : List Char
  outputFormat : List Char
  exampleInputs : List (List Char)
  exampleOutputs : List (List Char)
  explanations : List (List Char)
  hiddenTestCases : List HiddenTestCase
  starterCode : StarterCode
deriving DecidableEq

/-- `initialFormData.content` (`src/unnamed/part_001`, lines 12-34). -/
def initialContent : QuestionContent :=
  { problemDescription := [], constraints := [], inputFormat := [],
    outputFormat := [],
    exampleInputs := [[]], exampleOutputs := [[]], explanations := [[]],
    hiddenTestCases := [{ input := [], expectedOutput := [] }],
    starterCode := { python := [], javascript := [], cpp := [], java := [] } }

/-- Which of the three parallel example arrays `handleExampleChange`
touches. -/
inductive ExampleField where
  | inputsF
  | outputsF
  | explanationsF
deriving DecidableEq

/-- Which field of a hidden test case `handleTestCaseChange` touches. -/
inductive TestCaseField where
  | inputF
  | expectedOutputF
deriving DecidableEq

/-- Model of `list.map((item, i) => i === index ? value : item)`:
`List.set` is a no-op on an out-of-range index, exactly like the map. -/
def setAt (l : List (List Char)) (i : Nat) (v : List Char) :
    List (List Char) := l.set i v

/-- Model of `list.map((tc, i) => i === index ? {...tc, [field]: value} : tc)`. -/
def updateNth {α : Type} : List α → Nat → (α → α) → List α
  | [], _, _ => []
  | a :: as, 0, f => f a :: as
  | a :: as, n + 1, f => a :: updateNth as n f

/-- Model of `list.filter((_, i) => i !== index)`: drop the element at the
index when it exists (`List.eraseIdx` is a no-op out of range, like the
filter). -/
def removeAt {α : Type} (l : List α) (i : Nat) : List α := l.eraseIdx i

/-- The example/test-case editing operations of the create-question form
(`src/unnamed/part_001`, lines 92-158). -/
inductive FormOp where
  | addExample
  | removeExample (i : Nat)
  | exampleChange (i : Nat) (f : ExampleField) (v : List Char)
  | addTestCase
  | removeTestCase (i : Nat)
  | testCaseChange (i : Nat) (f : TestCaseField) (v : List Char)

/-- Embedding of the six state-update handlers (`src/unnamed/part_001`,
lines 92-158), each applied to the current form content.  `removeExample`
and `removeTestCase` refuse to act when the respective array has at most
one element. -/
def applyOp (c : QuestionContent) : FormOp → QuestionContent
  | FormOp.addExample =>
    { c with exampleInputs := c.exampleInputs ++ [[]],
             exampleOutputs := c.exampleOutputs ++ [[]],
             explanations := c.explanations ++ [[]] }
  | FormOp.removeExample i =>
    if c.exampleInputs.length ≤ 1 then c
    else
      { c with exampleInputs := removeAt c.exampleInputs i,
               exampleOutputs := removeAt c.exampleOutputs i,
               explanations := removeAt c.explanations i }
  | FormOp.exampleChange i f v =>
    match f with
    | ExampleField.inputsF => { c with exampleInputs := setAt c.exampleInputs i v }
    | ExampleField.outputsF => { c with exampleOutputs := setAt c.exampleOutputs i v }
    | ExampleField.explanationsF => { c with explanations := setAt c.explanations i v }
  | FormOp.addTestCase =>
    { c with hiddenTestCases :=
        c.hiddenTestCases ++ [{ input := [], expectedOutput := [] }] }
  | FormOp.removeTestCase i =>
    if c.hiddenTestCases.length ≤ 1 then c
    else { c with hiddenTestCases := removeAt c.hiddenTestCases i }
  | FormOp.testCaseChange i f v =>
    { c with hiddenTestCases :=
        updateNth c.hiddenTestCases i (fun tc =>
          match f with
          | TestCaseField.inputF => { tc with input := v }
          | TestCaseField.expectedOutputF => { tc with expectedOutput := v }) }

/-- The invariant of claim C10: the three example arrays stay aligned and
nonempty, and there is always at least one hidden test case row. -/
def contentInvariant (c : QuestionContent) : Prop :=
  c.exampleOutputs.length = c.exampleInputs.length ∧
  c.explanations.length = c.exampleInputs.length ∧
  1 ≤ c.exampleInputs.length ∧
  1 ≤ c.hiddenTestCases.length

/-- The successful generation payload as consumed by
`handleGenerateAssets` (`src/unnamed/part_001`, lines 343-354); either
field may be absent from the response object. -/
structure GeneratedData where
  starterCode : Option StarterCode
  hiddenTestCases : Option (List HiddenTestCase)
deriving DecidableEq

/-- Embedding of the merge step of `handleGenerateAssets`
(`src/unnamed/part_001`, lines 345-354): the update keeps every other
content field, takes the generated starter code when present
(`generatedData.starterCode || prev.content.starterCode`), and takes the
generated test cases only when present and non-empty. -/
def mergeGeneratedAssets (prev : QuestionContent) (gen : GeneratedData) :
    QuestionContent :=
  { prev with
    starterCode :=
      match gen.starterCode with
      | some sc => sc
      | none => prev.starterCode,
    hiddenTestCases :=
      match gen.hiddenTestCases with
      | some l => if l.isEmpty then prev.hiddenTestCases else l
      | none => prev.hiddenTestCases }

/-- A request whose problemDescription is whitespace and whose constraints
are empty (used to exercise the multi-field missing report). -/
def reqTwoBlank : GenReq :=
  { problemDescription := some "  ".data, constraints := some [],
    inputFormat := some "i".data, outputFormat := some "o".data,
    exampleInputs := some ["1".data], exampleOutputs := some ["2".data],
    explanations := some ["e".data] }

/-- A request with every text field filled but an empty exampleInputs
array. -/
def reqEmptyInputs : GenReq :=
  { problemDescription := some "p".data, constraints := some "c".data,
    inputFormat := some "i".data, outputFormat := some "o".data,
    exampleInputs := some [], exampleOutputs := some ["1".data],
    explanations := some ["e".data] }

/-- A request with a blank entry inside a two-element exampleInputs
array. -/
def reqBlankEntry : GenReq :=
  { problemDescription := some "p".data, constraints := some "c".data,
    inputFormat := some "i".data, outputFormat := some "o".data,
    exampleInputs := some ["a".data, "".data],
    exampleOutputs := some ["1".data, "2".data],
    explanations := some ["e".data] }

/-- A request valid except that explanations is the empty array. -/
def reqEmptyExplanations : GenReq :=
  { problemDescription := some "p".data, constraints := some "c".data,
    inputFormat := some "i".data, outputFormat := some "o".data,
    exampleInputs := some ["1".data], exampleOutputs := some ["2".data],
    explanations := some [] }

/-- A fully valid request whose explanations are two blank entries (their
comma-join is the non-blank string consisting of one comma). -/
def reqBlankExplanations : GenReq :=
  { problemDescription := some "p".data, constraints := some "c".data,
    inputFormat := some "i".data, outputFormat := some "o".data,
    exampleInputs := some ["1".data], exampleOutputs := some ["2".data],
    explanations := some ["".data, "".data] }

/-- A fully valid request whose first explanation is whitespace-only. -/
def reqWsExplanation : GenReq :=
  { problemDescription := some "p".data, constraints := some "c".data,
    inputFormat := some "i".data, outputFormat := some "o".data,
    exampleInputs := some ["a".data, "c".data],
    exampleOutputs := some ["b".data, "d".data],
    explanations := some [" ".data, "x".data] }

/-- A parsed generator response whose python starter code is the empty
string while everything else is present and non-empty. -/
def assetsEmptyPython : GeminiAssets :=
  { starterCode :=
      { python := [], javascript := "x".data, cpp := "x".data,
        java := "x".data },
    hiddenTestCases := [{ input := "1".data, expectedOutput := "2".data }] }

/-- A parsed generator response with all four starter snippets non-empty
and a single valid test case. -/
def assetsAllFilled : GeminiAssets :=
  { starterCode :=
      { python := "p".data, javascript := "j".data, cpp := "c".data,
        java := "v".data },
    hiddenTestCases := [{ input := "1".data, expectedOutput := "2".data }] }

/-- A structurally valid parsed response with 17 hidden test cases. -/
def assetsSeventeen : GeminiAssets :=
  { starterCode :=
      { python := "p".data, javascript := "j".data, cpp := "c".data,
        java := "v".data },
    hiddenTestCases :=
      List.replicate 17 { input := "1".data, expectedOutput := "2".data } }

/-- A draft content used to exercise the merge policy. -/
def draftC7 : QuestionContent :=
  { problemDescription := "desc".data, constraints := "cons".data,
    inputFormat := "in".data, outputFormat := "out".data,
    exampleInputs := ["ei".data], exampleOutputs := ["eo".data],
    explanations := ["ex".data],
    hiddenTestCases := [{ input := "hi".data, expectedOutput := "ho".data }],
    starterCode :=
      { python := "dp".data, javascript := "dj".data, cpp := "dc".data,
        java := "dv".data } }

/-- A generation payload carrying both a starter-code mapping and one
non-empty test-case sequence. -/
def genC7 : GeneratedData :=
  { starterCode :=
      some { python := "gp".data, javascript := "gj".data, cpp := "gc".data,
             java := "gv".data },
    hiddenTestCases :=
      some [{ input := "gi".data, expectedOutput := "go".data }] }

lemma hasPrefixChars_self_append (p t : List Char) :
    hasPrefixChars p (p ++ t) = true := by
  induction p with
  | nil => rfl
  | cons a ps ih => simp [hasPrefixChars, ih]

lemma dropWhile_cons_of_not (c : Char) (l : List Char) (h : jsWs c = false) :
    (c :: l).dropWhile jsWs = c :: l := by
  simp [List.dropWhile_cons, h]

lemma jsTrim_of_ends (c d : Char) (m : List Char)
    (hc : jsWs c = false) (hd : jsWs d = false) :
    jsTrim (c :: (m ++ [d])) = c :: (m ++ [d]) := by
  unfold jsTrim
  rw [dropWhile_cons_of_not c _ hc]
  rw [show (c :: (m ++ [d])).reverse = d :: (m.reverse ++ [c]) by simp]
  rw [dropWhile_cons_of_not d _ hd]
  simp

lemma stripClosingFence_append (t : List Char) :
    stripClosingFence (t ++ fenceClose) = t := by
  unfold stripClosingFence hasSuffixChars
  rw [show (t ++ fenceClose).reverse = fenceClose.reverse ++ t.reverse by simp]
  rw [hasPrefixChars_self_append]
  unfold dropRightN
  rw [if_pos rfl]
  rw [show (t ++ fenceClose).reverse = fenceClose.reverse ++ t.reverse by simp]
  rw [show (4 : Nat) = fenceClose.reverse.length from rfl, List.drop_left]
  simp

lemma cleanResponse_wrapJson (t : List Char) :
    cleanResponse (wrapJsonFence t) = t := by
  have hshape : wrapJsonFence t =
      '`' :: ((['`', '`', 'j', 's', 'o', 'n', '\n'] ++ t ++ ['\n', '`', '`']) ++ ['`']) := by
    simp [wrapJsonFence, fenceJsonOpen, fenceClose]
  have htrim : jsTrim (wrapJsonFence t) = wrapJsonFence t := by
    rw [hshape]
    exact jsTrim_of_ends '`' '`' _ (by decide) (by decide)
  have htag : hasPrefixChars fenceTagJson (wrapJsonFence t) = true := by
    rw [show wrapJsonFence t = fenceTagJson ++ ('\n' :: (t ++ fenceClose)) by
      simp [wrapJsonFence, fenceJsonOpen, fenceTagJson, fenceClose]]
    exact hasPrefixChars_self_append _ _
  have hopen : hasPrefixChars fenceJsonOpen (wrapJsonFence t) = true := by
    rw [show wrapJsonFence t = fenceJsonOpen ++ (t ++ fenceClose) by
      simp [wrapJsonFence]]
    exact hasPrefixChars_self_append _ _
  have hdrop : (wrapJsonFence t).drop 8 = t ++ fenceClose := by
    rw [show wrapJsonFence t = fenceJsonOpen ++ (t ++ fenceClose) by
      simp [wrapJsonFence]]
    rw [show (8 : Nat) = fenceJsonOpen.length from rfl, List.drop_left]
  show cleanResponse (wrapJsonFence t) = t
  unfold cleanResponse
  simp only [htrim, htag, hopen, if_pos, hdrop]
  exact stripClosingFence_append t

lemma json_tag_not_prefix_of_plain (t : List Char) :
    hasPrefixChars fenceTagJson (wrapPlainFence t) = true → False := by
  intro h
  rw [show wrapPlainFence t = '`' :: '`' :: '`' :: '\n' :: (t ++ fenceClose) by
    simp [wrapPlainFence, fencePlainOpen]] at h
  simp only [fenceTagJson, hasPrefixChars] at h
  rw [show (('j' : Char) == '\n') = false from rfl] at h
  simp at h

lemma cleanResponse_wrapPlain (t : List Char) :
    cleanResponse (wrapPlainFence t) = t := by
  have hshape : wrapPlainFence t =
      '`' :: ((['`', '`', '\n'] ++ t ++ ['\n', '`', '`']) ++ ['`']) := by
    simp [wrapPlainFence, fencePlainOpen, fenceClose]
  have htrim : jsTrim (wrapPlainFence t) = wrapPlainFence t := by
    rw [hshape]
    exact jsTrim_of_ends '`' '`' _ (by decide) (by decide)
  have htag : hasPrefixChars fenceTagJson (wrapPlainFence t) = false := by
    cases hcase : hasPrefixChars fenceTagJson (wrapPlainFence t) with
    | false => rfl
    | true => exact absurd hcase (fun h => json_tag_not_prefix_of_plain t h)
  have htagp : hasPrefixChars fenceTagPlain (wrapPlainFence t) = true := by
    rw [show wrapPlainFence t = fenceTagPlain ++ ('\n' :: (t ++ fenceClose)) by
      simp [wrapPlainFence, fencePlainOpen, fenceTagPlain, fenceClose]]
    exact hasPrefixChars_self_append _ _
  have hopen : hasPrefixChars fencePlainOpen (wrapPlainFence t) = true := by
    rw [show wrapPlainFence t = fencePlainOpen ++ (t ++ fenceClose) by
      simp [wrapPlainFence]]
    exact hasPrefixChars_self_append _ _
  have hdrop : (wrapPlainFence t).drop 4 = t ++ fenceClose := by
    rw [show wrapPlainFence t = fencePlainOpen ++ (t ++ fenceClose) by
      simp [wrapPlainFence]]
    rw [show (4 : Nat) = fencePlainOpen.length from rfl, List.drop_left]
  unfold cleanResponse
  simp only [htrim, htag, htagp, hopen, if_pos, Bool.false_eq_true, if_false, hdrop]
  exact stripClosingFence_append t

lemma isEmpty_false_of_ne {α : Type} {l : List α} (h : l ≠ []) :
    l.isEmpty = false := by
  cases l with
  | nil => exact absurd rfl h
  | cons a as => rfl

lemma length_updateNth {α : Type} (l : List α) (n : Nat) (f : α → α) :
    (updateNth l n f).length = l.length := by
  induction l generalizing n with
  | nil => rfl
  | cons a as ih =>
    cases n with
    | zero => rfl
    | succ m => simp [updateNth, ih]

lemma removeAt_length {α : Type} (l : List α) (i : Nat) :
    (removeAt l i).length =
      if i < l.length then l.length - 1 else l.length := by
  unfold removeAt
  induction l generalizing i with
  | nil => simp [List.eraseIdx]
  | cons a as ih =>
    cases i with
    | zero => simp [List.eraseIdx]
    | succ n =>
      simp only [List.eraseIdx, List.length_cons, ih]
      by_cases h : n < as.length
      · rw [if_pos h, if_pos (by omega)]
        omega
      · rw [if_neg h, if_neg (by omega)]

lemma memberPD_of_missing (r : GenReq)
    (h : strFieldMissing r.problemDescription = true) :
    fieldPD ∈ missingFields r := by
  simp [missingFields, h]

lemma memberConstraints_of_missing (r : GenReq)
    (h : strFieldMissing r.constraints = true) :
    fieldConstraints ∈ missingFields r := by
  simp [missingFields, h]

lemma memberInFmt_of_missing (r : GenReq)
    (h : strFieldMissing r.inputFormat = true) :
    fieldInFmt ∈ missingFields r := by
  simp [missingFields, h]

lemma memberOutFmt_of_missing (r : GenReq)
    (h : strFieldMissing r.outputFormat = true) :
    fieldOutFmt ∈ missingFields r := by
  simp [missingFields, h]

/-- C5: wrapping a body in a fenced code block, tagged or untagged, is
transparent to the normalizer: cleaning the wrapped text returns the body,
so parsing the cleaned text equals parsing the body directly. -/
theorem claim_C5_fence_roundtrip
    (parse : List Char → Except (List Char) GeminiAssets) (t : List Char) :
    cleanResponse (wrapJsonFence t) = t ∧
    cleanResponse (wrapPlainFence t) = t ∧
    parse (cleanResponse (wrapJsonFence t)) = parse t ∧
    parse (cleanResponse (wrapPlainFence t)) = parse t :=
  ⟨cleanResponse_wrapJson t, cleanResponse_wrapPlain t,
   by rw [cleanResponse_wrapJson], by rw [cleanResponse_wrapPlain]⟩

/-- C1: whenever any of the four required text fields is absent or blank
after trimming, the route answers 400 with the message built from the full
missing-fields list, and that list contains every blank text field. -/
theorem claim_C1_missing_fields_report (r : GenReq)
    (h : strFieldMissing r.problemDescription = true ∨
      strFieldMissing r.constraints = true ∨
      strFieldMissing r.inputFormat = true ∨
      strFieldMissing r.outputFormat = true) :
    validateRequest r = some (400, missingMsg (missingFields r)) ∧
    (strFieldMissing r.problemDescription = true → fieldPD ∈ missingFields r) ∧
    (strFieldMissing r.constraints = true → fieldConstraints ∈ missingFields r) ∧
    (strFieldMissing r.inputFormat = true → fieldInFmt ∈ missingFields r) ∧
    (strFieldMissing r.outputFormat = true → fieldOutFmt ∈ missingFields r) := by
  have hne : 0 < (missingFields r).length := by
    rcases h with h | h | h | h
    · exact List.length_pos.mpr (List.ne_nil_of_mem (memberPD_of_missing r h))
    · exact List.length_pos.mpr (List.ne_nil_of_mem (memberConstraints_of_missing r h))
    · exact List.length_pos.mpr (List.ne_nil_of_mem (memberInFmt_of_missing r h))
    · exact List.length_pos.mpr (List.ne_nil_of_mem (memberOutFmt_of_missing r h))
  refine ⟨?_, memberPD_of_missing r, memberConstraints_of_missing r,
    memberInFmt_of_missing r, memberOutFmt_of_missing r⟩
  unfold validateRequest
  rw [if_pos hne]

/-- Witness for C1: a request with whitespace problemDescription and empty
constraints is rejected with the list naming both fields. -/
theorem claim_C1_witness :
    validateRequest reqTwoBlank =
      some (400, missingMsg (missingFields reqTwoBlank)) ∧
    fieldPD ∈ missingFields reqTwoBlank ∧
    fieldConstraints ∈ missingFields reqTwoBlank :=
  ⟨(claim_C1_missing_fields_report reqTwoBlank (Or.inl (by decide))).1,
   (claim_C1_missing_fields_report reqTwoBlank (Or.inl (by decide))).2.1 (by decide),
   (claim_C1_missing_fields_report reqTwoBlank (Or.inl (by decide))).2.2.1 (by decide)⟩

/-- C4: when the cleaned response fails to parse, the route answers 500
with the fixed failure body (independent of the raw text), returns no
assets, and logs the raw text together with the parser diagnostic. -/
theorem claim_C4_parse_failure
    (parse : List Char → Except (List Char) GeminiAssets)
    (raw diag : List Char)
    (hp : parse (cleanResponse raw) = Except.error diag) :
    processGeminiResponse parse raw =
      { status := 500, errorMsg := some parseFailureMsg, assets := none,
        logs := [logRawLead ++ raw, logDiagLead ++ diag],
        warned := false } := by
  unfold processGeminiResponse
  rw [hp]

/-- Witness for C4: a constantly failing parse on a concrete raw text. -/
theorem claim_C4_witness :
    processGeminiResponse (fun _ => Except.error "bad".data) "raw".data =
      { status := 500, errorMsg := some parseFailureMsg, assets := none,
        logs := [logRawLead ++ "raw".data, logDiagLead ++ "bad".data],
        warned := false } :=
  claim_C4_parse_failure (fun _ => Except.error "bad".data) "raw".data
    "bad".data rfl

lemma missingMsg_head (fs : List (List Char)) :
    (missingMsg fs).head? = some 'M' := by
  rw [missingMsg,
    show "Missing required fields: ".data =
      'M' :: "issing required fields: ".data from rfl]
  rfl

lemma missingMsg_ne_errExampleInputs (fs : List (List Char)) :
    missingMsg fs ≠ errExampleInputs := by
  intro h
  have hm := missingMsg_head fs
  rw [h] at hm
  exact absurd hm (by decide)

lemma missingMsg_ne_errExampleOutputs (fs : List (List Char)) :
    missingMsg fs ≠ errExampleOutputs := by
  intro h
  have hm := missingMsg_head fs
  rw [h] at hm
  exact absurd hm (by decide)

/-- Counterexample for C2: all four text fields are non-blank and
exampleInputs is empty, yet the response is the missing-fields message
(an empty array stringifies to a blank string), not the examples-specific
message the claim requires. -/
theorem claim_C2_counterexample :
    validateRequest reqEmptyInputs =
      some (400, "Missing required fields: exampleInputs".data) ∧
    validateRequest reqEmptyInputs ≠ some (400, errExampleInputs) := by
  constructor
  · decide
  · decide

/-- C2 as amended: once the missing-fields check passes (which already
excludes empty example arrays, since they stringify to a blank string), a
blank entry in exampleInputs yields exactly the example-inputs message,
and otherwise a length mismatch or blank entry in exampleOutputs yields
exactly the example-outputs message; the three messages are pairwise
distinct. -/
theorem claim_C2_examples_errors (r : GenReq) (ins outs : List (List Char))
    (hin : r.exampleInputs = some ins)
    (hout : r.exampleOutputs = some outs)
    (hmf : missingFields r = []) :
    (ins.any strBlank = true →
      validateRequest r = some (400, errExampleInputs)) ∧
    (ins.any strBlank = false →
      (outs.length != ins.length || outs.any strBlank) = true →
      validateRequest r = some (400, errExampleOutputs)) ∧
    errExampleInputs ≠ errExampleOutputs ∧
    (∀ fs, missingMsg fs ≠ errExampleInputs ∧
      missingMsg fs ≠ errExampleOutputs) := by
  have hlen : ¬ 0 < (missingFields r).length := by
    rw [hmf]
    simp
  have hins_ne : ins ≠ [] := by
    intro hnil
    have hmiss : arrFieldMissing r.exampleInputs = true := by
      rw [hin, hnil]
      rfl
    have hmem : fieldExIn ∈ missingFields r := by
      simp [missingFields, hmiss]
    rw [hmf] at hmem
    exact absurd hmem (List.not_mem_nil _)
  refine ⟨?_, ?_, by decide,
    fun fs => ⟨missingMsg_ne_errExampleInputs fs,
      missingMsg_ne_errExampleOutputs fs⟩⟩
  · intro ha
    unfold validateRequest
    rw [if_neg hlen, hin]
    simp only [ha, Bool.or_true, if_pos]
  · intro ha hb
    unfold validateRequest
    rw [if_neg hlen, hin]
    simp only [isEmpty_false_of_ne hins_ne, ha, Bool.or_false, Bool.false_or]
    rw [if_neg (by simp), hout]
    simp only [hb, if_pos]

/-- Witness for C2 (amended): a blank second entry in exampleInputs
produces exactly the example-inputs message. -/
theorem claim_C2_witness :
    validateRequest reqBlankEntry = some (400, errExampleInputs) :=
  (claim_C2_examples_errors reqBlankEntry
    ["a".data, "".data] ["1".data, "2".data] rfl rfl (by decide)).1
    (by decide)

/-- Counterexample for C8: a request satisfying every other rule but with
an empty explanations array is rejected by the missing-fields check, so
validation does not succeed for every explanations value. -/
theorem claim_C8_counterexample :
    validateRequest reqEmptyExplanations =
      some (400, "Missing required fields: explanations".data) ∧
    validateRequest reqEmptyExplanations ≠ none := by
  constructor
  · decide
  · decide

/-- C8 as amended: the Validator imposes no per-entry constraint on
explanations, but explanations does take part in the missing-fields check
through its comma-joined string form: when the other rules hold and that
join is non-blank, validation succeeds no matter how blank the individual
entries are; an absent, empty, or blank-joining explanations array is
rejected as a missing field. -/
theorem claim_C8_explanations_join (r : GenReq)
    (ins outs expls : List (List Char))
    (hin : r.exampleInputs = some ins)
    (hout : r.exampleOutputs = some outs)
    (hexp : r.explanations = some expls)
    (hpd : strFieldMissing r.problemDescription = false)
    (hcn : strFieldMissing r.constraints = false)
    (hif : strFieldMissing r.inputFormat = false)
    (hof : strFieldMissing r.outputFormat = false)
    (hji : strBlank (joinComma ins) = false)
    (hjo : strBlank (joinComma outs) = false)
    (hje : strBlank (joinComma expls) = false)
    (hia : ins.any strBlank = false)
    (hol : outs.length = ins.length)
    (hoa : outs.any strBlank = false) :
    validateRequest r = none := by
  have hmf : missingFields r = [] := by
    simp [missingFields, hpd, hcn, hif, hof, hin, hout, hexp,
      arrFieldMissing, hji, hjo, hje]
  have hins_ne : ins ≠ [] := by
    intro hnil
    rw [hnil] at hji
    exact absurd hji (by decide)
  unfold validateRequest
  rw [hmf]
  simp only [List.length_nil, lt_irrefl, if_false]
  rw [hin]
  simp only [isEmpty_false_of_ne hins_ne, hia, Bool.or_false]
  rw [if_neg (by simp), hout]
  simp only [hol, bne_self_eq_false, hoa, Bool.or_false]
  rw [if_neg (by simp)]

/-- Witness for C8 (amended): explanations consisting of two blank entries
joins to a single comma, which is non-blank, and validation succeeds. -/
theorem claim_C8_witness :
    validateRequest reqBlankExplanations = none :=
  claim_C8_explanations_join reqBlankExplanations
    ["1".data] ["2".data] ["".data, "".data] rfl rfl rfl
    (by decide) (by decide) (by decide) (by decide)
    (by decide) (by decide) (by decide)
    (by decide) (by decide) (by decide)

/-- Counterexample for C9: `reqWsExplanation` passes validation, and in
the prompt built from it the first example block carries an Explanation
line for its whitespace-only explanation entry — the truthiness test on
line 125 treats a whitespace-only string as present. -/
theorem claim_C9_counterexample :
    validateRequest reqWsExplanation = none ∧
    examplesString ["a".data, "c".data] ["b".data, "d".data]
        [" ".data, "x".data] =
      ("\nExample 1:\nInput:\na\nOutput:\nb\nExplanation:\n \n" ++
        "\n---\n" ++
        "\nExample 2:\nInput:\nc\nOutput:\nd\nExplanation:\nx\n").data := by
  constructor
  · decide
  · decide

/-- C9 as amended: an example block carries an Explanation line exactly
when the corresponding explanations entry is present and non-empty; in
particular a whitespace-only entry is truthy and does produce an
Explanation line, while an empty or absent entry does not. -/
theorem claim_C9_explanation_truthiness (i : Nat) (input output e : List Char) :
    renderExample i input output (some e) =
      renderExample i input output none ↔ e = [] := by
  constructor
  · intro h
    by_contra he
    have hlen := congrArg List.length h
    simp [renderExample, explanationSlot, isEmpty_false_of_ne he] at hlen
  · intro h
    rw [h]
    rfl

/-- Counterexample for C3: a parsed bundle with all four starterCode keys
holding strings (python being the empty string) and one valid hidden test
case is rejected with the 500 failure body — the structural check tests
each snippet with `!`, so an empty string fails like a missing key. -/
theorem claim_C3_counterexample :
    (processGeminiResponse (fun _ => Except.ok assetsEmptyPython)
      "raw".data).status = 500 ∧
    (processGeminiResponse (fun _ => Except.ok assetsEmptyPython)
      "raw".data).errorMsg = some parseFailureMsg := by
  constructor
  · rfl
  · rfl

/-- C3 as amended: the normalizer accepts the bundle (status 200, no
error) when the four starter-code strings are all non-empty and
hiddenTestCases starts with an entry whose input and expectedOutput are
non-empty; an empty starter-code string is instead rejected with the 500
failure body, because the check uses JavaScript truthiness. -/
theorem claim_C3_structural_acceptance
    (parse : List Char → Except (List Char) GeminiAssets)
    (raw : List Char) (g : GeminiAssets)
    (t : HiddenTestCase) (rest : List HiddenTestCase)
    (hp : parse (cleanResponse raw) = Except.ok g)
    (hpy : g.starterCode.python ≠ [])
    (hjs : g.starterCode.javascript ≠ [])
    (hcp : g.starterCode.cpp ≠ [])
    (hjv : g.starterCode.java ≠ [])
    (hht : g.hiddenTestCases = t :: rest)
    (hti : t.input ≠ []) (hto : t.expectedOutput ≠ []) :
    (processGeminiResponse parse raw).status = 200 ∧
    (processGeminiResponse parse raw).errorMsg = none ∧
    (processGeminiResponse parse raw).assets = some g := by
  have hok : structureOk g = true := by
    simp [structureOk, hht, isEmpty_false_of_ne hpy, isEmpty_false_of_ne hjs,
      isEmpty_false_of_ne hcp, isEmpty_false_of_ne hjv,
      isEmpty_false_of_ne hti, isEmpty_false_of_ne hto]
  unfold processGeminiResponse
  rw [hp]
  simp [hok]

/-- Witness for C3 (amended): a bundle with the four snippets filled and
one complete test case is accepted. -/
theorem claim_C3_witness :
    (processGeminiResponse (fun _ => Except.ok assetsAllFilled)
      "raw".data).status = 200 ∧
    (processGeminiResponse (fun _ => Except.ok assetsAllFilled)
      "raw".data).errorMsg = none ∧
    (processGeminiResponse (fun _ => Except.ok assetsAllFilled)
      "raw".data).assets = some assetsAllFilled :=
  claim_C3_structural_acceptance (fun _ => Except.ok assetsAllFilled)
    "raw".data assetsAllFilled
    { input := "1".data, expectedOutput := "2".data } [] rfl
    (by decide) (by decide) (by decide) (by decide) rfl
    (by decide) (by decide)

/-- C6: a structurally valid bundle is always accepted and returned
(status 200), and the warning signal fires exactly when the hiddenTestCases
length falls outside [18, 22] — the length deviation is never fatal. -/
theorem claim_C6_soft_length
    (parse : List Char → Except (List Char) GeminiAssets)
    (raw : List Char) (g : GeminiAssets)
    (hp : parse (cleanResponse raw) = Except.ok g)
    (hs : structureOk g = true) :
    (processGeminiResponse parse raw).status = 200 ∧
    (processGeminiResponse parse raw).assets = some g ∧
    ((processGeminiResponse parse raw).warned = true ↔
      g.hiddenTestCases.length < 18 ∨ 22 < g.hiddenTestCases.length) := by
  unfold processGeminiResponse
  rw [hp]
  simp [hs]

/-- Witness for C6: a valid bundle with 17 test cases is accepted with the
warning flag set. -/
theorem claim_C6_witness :
    (processGeminiResponse (fun _ => Except.ok assetsSeventeen)
      "x".data).status = 200 ∧
    (processGeminiResponse (fun _ => Except.ok assetsSeventeen)
      "x".data).warned = true :=
  ⟨(claim_C6_soft_length (fun _ => Except.ok assetsSeventeen) "x".data
      assetsSeventeen rfl (by decide)).1,
   ((claim_C6_soft_length (fun _ => Except.ok assetsSeventeen) "x".data
      assetsSeventeen rfl (by decide)).2.2).mpr (Or.inl (by decide))⟩

/-- C7: the merge step of `handleGenerateAssets` keeps every
caller-authored content field, replaces starterCode wholesale exactly when
the generated mapping is present, and replaces hiddenTestCases wholesale
exactly when the generated sequence is present and non-empty. -/
theorem claim_C7_merge_frame (prev : QuestionContent) (gen : GeneratedData) :
    (mergeGeneratedAssets prev gen).problemDescription = prev.problemDescription ∧
    (mergeGeneratedAssets prev gen).constraints = prev.constraints ∧
    (mergeGeneratedAssets prev gen).inputFormat = prev.inputFormat ∧
    (mergeGeneratedAssets prev gen).outputFormat = prev.outputFormat ∧
    (mergeGeneratedAssets prev gen).exampleInputs = prev.exampleInputs ∧
    (mergeGeneratedAssets prev gen).exampleOutputs = prev.exampleOutputs ∧
    (mergeGeneratedAssets prev gen).explanations = prev.explanations ∧
    (∀ sc, gen.starterCode = some sc →
      (mergeGeneratedAssets prev gen).starterCode = sc) ∧
    (gen.starterCode = none →
      (mergeGeneratedAssets prev gen).starterCode = prev.starterCode) ∧
    (∀ l, gen.hiddenTestCases = some l → l ≠ [] →
      (mergeGeneratedAssets prev gen).hiddenTestCases = l) ∧
    (gen.hiddenTestCases = some [] ∨ gen.hiddenTestCases = none →
      (mergeGeneratedAssets prev gen).hiddenTestCases =
        prev.hiddenTestCases) := by
  refine ⟨rfl, rfl, rfl, rfl, rfl, rfl, rfl, ?_, ?_, ?_, ?_⟩
  · intro sc hsc
    simp [mergeGeneratedAssets, hsc]
  · intro hsc
    simp [mergeGeneratedAssets, hsc]
  · intro l hl hne
    simp [mergeGeneratedAssets, hl, isEmpty_false_of_ne hne]
  · intro hl
    rcases hl with hl | hl <;> simp [mergeGeneratedAssets, hl]

/-- Witness for C7: merging a payload carrying both parts into a concrete
draft keeps the draft examples and texts and swaps in the generated
starter code and test cases. -/
theorem claim_C7_witness :
    (mergeGeneratedAssets draftC7 genC7).problemDescription =
      draftC7.problemDescription ∧
    (mergeGeneratedAssets draftC7 genC7).exampleInputs =
      draftC7.exampleInputs ∧
    (mergeGeneratedAssets draftC7 genC7).starterCode =
      { python := "gp".data, javascript := "gj".data, cpp := "gc".data,
        java := "gv".data } ∧
    (mergeGeneratedAssets draftC7 genC7).hiddenTestCases =
      [{ input := "gi".data, expectedOutput := "go".data }] :=
  ⟨(claim_C7_merge_frame draftC7 genC7).1,
   (claim_C7_merge_frame draftC7 genC7).2.2.2.2.1,
   (claim_C7_merge_frame draftC7 genC7).2.2.2.2.2.2.2.1 _ rfl,
   (claim_C7_merge_frame draftC7 genC7).2.2.2.2.2.2.2.2.2.1 _ rfl
     (by decide)⟩

lemma applyOp_preserves (c : QuestionContent) (op : FormOp)
    (h : contentInvariant c) : contentInvariant (applyOp c op) := by
  obtain ⟨h1, h2, h3, h4⟩ := h
  cases op with
  | addExample =>
    refine ⟨?_, ?_, ?_, h4⟩
    · simp [applyOp, h1]
    · simp [applyOp, h2]
    · simp [applyOp]
  | removeExample i =>
    simp only [applyOp]
    by_cases hle : c.exampleInputs.length ≤ 1
    · rw [if_pos hle]
      exact ⟨h1, h2, h3, h4⟩
    · rw [if_neg hle]
      refine ⟨?_, ?_, ?_, h4⟩
      · show (removeAt c.exampleOutputs i).length = (removeAt c.exampleInputs i).length
        rw [removeAt_length, removeAt_length, h1]
      · show (removeAt c.explanations i).length = (removeAt c.exampleInputs i).length
        rw [removeAt_length, removeAt_length, h2]
      · show 1 ≤ (removeAt c.exampleInputs i).length
        rw [removeAt_length]
        by_cases hi : i < c.exampleInputs.length
        · rw [if_pos hi]
          omega
        · rw [if_neg hi]
          omega
  | exampleChange i f v =>
    cases f with
    | inputsF =>
      exact ⟨by simp [applyOp, setAt, h1], by simp [applyOp, setAt, h2],
        by simp [applyOp, setAt, h3], h4⟩
    | outputsF =>
      exact ⟨by simp [applyOp, setAt, h1], h2, h3, h4⟩
    | explanationsF =>
      exact ⟨h1, by simp [applyOp, setAt, h2], h3, h4⟩
  | addTestCase =>
    refine ⟨h1, h2, h3, ?_⟩
    simp [applyOp]
  | removeTestCase i =>
    simp only [applyOp]
    by_cases hle : c.hiddenTestCases.length ≤ 1
    · rw [if_pos hle]
      exact ⟨h1, h2, h3, h4⟩
    · rw [if_neg hle]
      refine ⟨h1, h2, h3, ?_⟩
      show 1 ≤ (removeAt c.hiddenTestCases i).length
      rw [removeAt_length]
      by_cases hi : i < c.hiddenTestCases.length
      · rw [if_pos hi]
        omega
      · rw [if_neg hi]
        omega
  | testCaseChange i f v =>
    refine ⟨h1, h2, h3, ?_⟩
    show 1 ≤ (updateNth c.hiddenTestCases i _).length
    rw [length_updateNth]
    exact h4

lemma foldl_applyOp_invariant (ops : List FormOp) :
    ∀ c : QuestionContent, contentInvariant c →
      contentInvariant (List.foldl applyOp c ops) := by
  induction ops with
  | nil => intro c hc; simpa using hc
  | cons o rest ih =>
    intro c hc
    rw [List.foldl_cons]
    exact ih _ (applyOp_preserves c o hc)

/-- C10: starting from the initial form data, every sequence of
example/test-case editing operations keeps the three example arrays the
same length (at least one entry) and keeps at least one hidden test case:
additions extend the three example arrays together and removals are
refused on a one-element array. -/
theorem claim_C10_form_invariant (ops : List FormOp) :
    contentInvariant (List.foldl applyOp initialContent ops) :=
  foldl_applyOp_invariant ops initialContent
    ⟨rfl, rfl, Nat.le_refl 1, Nat.le_refl 1⟩
